import Mathlib

set_option linter.unusedVariables false

/-!
A shallow embedding of the mcp-server-demo repository: the sticky-note MCP
server (`main.py`) and the Azure OpenAI MCP client (`client-stdio.py`).

Python strings are Lean strings, the notes file is an `Option String`
(`none` means the file is absent), optional Python values are `Option`s,
and escaping exceptions are `Except` errors.  The network interactions of
`process_query` (the two chat-completion calls, the JSON decoder, and the
MCP `call_tool` endpoint) are supplied by an oracle structure `Env`, and
`process_query` returns a trace of every chat request and tool invocation
it issued together with its result.
-/

/-- Model of a non-list Python runtime value, as far as the client's
tool-result coercion needs one: `result.content` and `content[0].text` may
be `None`, a string, a number, or a boolean. -/
inductive PyVal where
  | vNone
  | vStr (s : String)
  | vInt (n : Int)
  | vBool (b : Bool)
deriving DecidableEq

/-- Model of Python `str(...)` on the values of `PyVal`. -/
def pyStr : PyVal → String
  | PyVal.vNone => "None"
  | PyVal.vStr s => s
  | PyVal.vInt n => toString n
  | PyVal.vBool b => if b then "True" else "False"

/-- Model of Python truthiness on the values of `PyVal`. -/
def pyTruthy : PyVal → Bool
  | PyVal.vNone => false
  | PyVal.vStr s => !s.isEmpty
  | PyVal.vInt n => decide (n ≠ 0)
  | PyVal.vBool b => b

/-- Model of Python truthiness of an optional string (`None` and the empty
string are falsy). -/
def optTruthy : Option String → Bool
  | none => false
  | some s => !s.isEmpty

/-- Model of Python `a or b` on optional strings: `a` when `a` is truthy,
otherwise `b` (whatever `b` is). -/
def pyOr (a b : Option String) : Option String :=
  if optTruthy a then a else b

/-- The ASCII whitespace characters removed by Python `str.strip()`:
space, tab, newline, carriage return, vertical tab, form feed. -/
def isPySpace (c : Char) : Bool :=
  c == ' ' || c == '\t' || c == '\n' || c == '\r' || c.toNat == 11 || c.toNat == 12

/-- Remove trailing Python whitespace from a character list. -/
def stripRight (l : List Char) : List Char :=
  (l.reverse.dropWhile isPySpace).reverse

/-- Strip both ends of a character list (right end first; the order does
not matter for the result). -/
def pyStripChars (l : List Char) : List Char :=
  (stripRight l).dropWhile isPySpace

/-- Model of Python `str.strip()` with no argument (ASCII whitespace). -/
def pyStrip (s : String) : String :=
  String.mk (pyStripChars s.data)

/-- Model of Python `str.lower()` (on the ASCII letters the loop's
sentinels use). -/
def pyLower (s : String) : String :=
  String.mk (s.data.map Char.toLower)

/-- Model of Python `file.readlines()` applied to contents given as a
character list: every line keeps its trailing newline, a final segment
without a newline is kept as-is, and an empty file yields no lines.  The
first argument accumulates the current line's characters in reverse. -/
def readlines_chars : List Char → List Char → List String
  | acc, [] => if acc.isEmpty then [] else [String.mk acc.reverse]
  | acc, c :: rest =>
    if c = '\n' then String.mk (acc.reverse ++ ['\n']) :: readlines_chars [] rest
    else readlines_chars (c :: acc) rest

/-- Model of Python `file.readlines()` on a file's contents. -/
def pyReadlines (s : String) : List String :=
  readlines_chars [] s.data

/-!
The sticky-note server, `main.py`.  The notes file `notes.txt` is the only
state; it is `none` when absent and `some c` when present with contents
`c`.  Each operation takes the file state and returns its result (and, for
`add_note`, the new file state).
-/

/-- Model of `ensure_file` (`main.py` lines 50 to 53): create the notes
file with empty contents when it is absent. -/
def ensure_file : Option String → Option String
  | none => some ""
  | some s => some s

/-- Model of the tool `add_note` (`main.py` lines 55 to 69): ensure the
file exists, append `message + "\n"` to it, and return the confirmation
string.  The first component is the new file state, the second the string
returned to the caller. -/
def add_note (fs : Option String) (message : String) : Option String × String :=
  let fs1 := ensure_file fs
  (some ((fs1.getD "") ++ message ++ "\n"), "Note saved!")

/-- Model of the tool `read_notes` (`main.py` lines 71 to 83): ensure the
file exists, read and strip its contents, and return them, with
`"No notes yet."` substituted when the stripped contents are falsy
(Python `content or "No notes yet."`). -/
def read_notes (fs : Option String) : String :=
  let fs1 := ensure_file fs
  let content := pyStrip (fs1.getD "")
  if content = "" then "No notes yet." else content

/-- Model of the resource `get_latest_note` (`main.py` lines 85 to 96):
ensure the file exists, read its lines, and return the last line stripped,
or `"No notes yet."` when there are no lines
(`lines[-1].strip() if lines else "No notes yet."`). -/
def get_latest_note (fs : Option String) : String :=
  let fs1 := ensure_file fs
  let lines := pyReadlines (fs1.getD "")
  match lines.getLast? with
  | some l => pyStrip l
  | none => "No notes yet."

/-!
The client, `client-stdio.py`.
-/

/-- The `function` part of a Tool Call Request in the model's response
(`tc.function.name` and `tc.function.arguments`; the arguments are the raw
JSON-encoded string produced by the model). -/
structure ToolCallFunction where
  name : String
  arguments : String
deriving DecidableEq

/-- A Tool Call Request of the model's response (`tc.id`, `tc.type`,
`tc.function`). -/
structure ToolCall where
  id : String
  type : String
  function : ToolCallFunction
deriving DecidableEq

/-- The assistant message of the first response
(`response.choices[0].message`): optional text content and an optional
list of Tool Call Requests (either may be `None`). -/
structure AssistantMessage where
  content : Option String
  tool_calls : Option (List ToolCall)
deriving DecidableEq

/-- The `function` dictionary built at `client-stdio.py` lines 145 to
148. -/
structure SerializedFunction where
  name : String
  arguments : String
deriving DecidableEq

/-- The tool-call dictionary built at `client-stdio.py` lines 142 to
149. -/
structure SerializedToolCall where
  id : String
  type : String
  function : SerializedFunction
deriving DecidableEq

/-- Serialization of one Tool Call Request for replay (`client-stdio.py`
lines 142 to 149): id, type, and function name and arguments are copied
exactly as received; the arguments stay the raw encoded string. -/
def serializeToolCall (tc : ToolCall) : SerializedToolCall :=
  { id := tc.id, type := tc.type,
    function := { name := tc.function.name, arguments := tc.function.arguments } }

/-- A message dictionary of the conversation sent to the chat API. -/
inductive Msg where
  | user (content : String)
  | assistant (content : String) (tool_calls : Option (List SerializedToolCall))
  | tool (tool_call_id : String) (content : String)
deriving DecidableEq

/-- The correlation id of a tool-role message (`none` for the other
roles). -/
def Msg.toolCallId : Msg → Option String
  | Msg.tool tool_call_id _ => some tool_call_id
  | _ => none

/-- A text item of an MCP tool result (`result.content[i]`); its `text`
attribute is a Python value fed to `str(...)`. -/
structure ContentItem where
  text : PyVal
deriving DecidableEq

/-- The `content` attribute of an MCP `call_tool` result: either a Python
list of content items, or some other, non-list Python value. -/
inductive ToolResultContent where
  | items (l : List ContentItem)
  | raw (v : PyVal)
deriving DecidableEq

/-- Model of Python truthiness of `result.content` (an empty list is
falsy). -/
def trcTruthy : ToolResultContent → Bool
  | ToolResultContent.items l => !l.isEmpty
  | ToolResultContent.raw v => pyTruthy v

/-- Model of `client-stdio.py` lines 167 to 172: `tool_content` starts as
the empty string; when `result.content` is truthy, a non-empty list yields
`str(result.content[0].text)` and any other value (necessarily not a
list) yields `str(result.content)`.  The branch for an empty list inside
the truthy test is unreachable, because an empty list is falsy. -/
def coerceToolContent (content : ToolResultContent) : String :=
  if trcTruthy content then
    match content with
    | ToolResultContent.items (first :: _) => pyStr first.text
    | ToolResultContent.items [] => ""
    | ToolResultContent.raw v => pyStr v
  else ""

/-- Model of `client-stdio.py` lines 133 to 137: the replayed assistant
content is the model's content when truthy and the empty string
otherwise. -/
def normContent (c : Option String) : String :=
  if optTruthy c then c.getD "" else ""

/-- Model of Python truthiness of `assistant_message.tool_calls` (`None`
and the empty list are falsy). -/
def toolCallsTruthy : Option (List ToolCall) → Bool
  | none => false
  | some l => !l.isEmpty

/-- Model of `client-stdio.py` lines 129 to 151: the assistant message
rebuilt for replay, with normalized content and, when tool calls are
present, their serialized list. -/
def normalizeAssistant (am : AssistantMessage) : Msg :=
  Msg.assistant (normContent am.content)
    (if toolCallsTruthy am.tool_calls
     then some ((am.tool_calls.getD []).map serializeToolCall)
     else none)

/-- A decoded JSON object passed as tool arguments (the result of
`json.loads` on the raw arguments string). -/
abbrev Args := List (String × PyVal)

/-- The Python exceptions that can escape `process_query`. -/
inductive PyError where
  | jsonDecodeError (raw : String)
  | mcpError (message : String)
  | apiError (message : String)
deriving DecidableEq

/-- The Python exception class a `PyError` stands for:
`json.loads` raises `json.JSONDecodeError`, a failed MCP `call_tool`
raises `McpError`, and a failed chat completion raises an OpenAI
`APIError`. -/
def PyError.pythonClass : PyError → String
  | PyError.jsonDecodeError _ => "json.JSONDecodeError"
  | PyError.mcpError _ => "McpError"
  | PyError.apiError _ => "APIError"

/-- One chat-completion request issued by the client: the message list and
the `tool_choice` flag.  The tool schema list is omitted; no claim depends
on it. -/
structure ChatRequest where
  messages : List Msg
  tool_choice : String
deriving DecidableEq

/-- The per-query oracle for everything outside the client's own control
flow: the outcome of the first chat completion, the JSON decoder, the MCP
`call_tool` endpoint, and the outcome of the second chat completion as a
function of the message list it is sent. -/
structure Env where
  firstCall : Except PyError AssistantMessage
  jsonLoads : String → Option Args
  callTool : String → Args → Except PyError ToolResultContent
  secondCall : List Msg → Except PyError (Option String)

/-- What one run of `process_query` did: every chat request issued, in
order; every MCP tool invocation dispatched, in order; and the returned
value (the final answer, an optional string) or the escaping exception. -/
structure QueryTrace where
  requests : List ChatRequest
  toolInvocations : List (String × Args)
  result : Except PyError (Option String)

/-- Model of the body of the tool-call loop (`client-stdio.py` lines 161
to 180) for one Tool Call Request: decode the raw arguments with
`json.loads` (its failure escapes before any dispatch), dispatch
`call_tool` (its failure escapes), and otherwise build the tool-role
message tagged with the request's id and the coerced string content.  The
first component lists the dispatches performed. -/
def execToolCall (env : Env) (tc : ToolCall) : List (String × Args) × Except PyError Msg :=
  match env.jsonLoads tc.function.arguments with
  | none => ([], Except.error (PyError.jsonDecodeError tc.function.arguments))
  | some args =>
    match env.callTool tc.function.name args with
    | Except.error e => ([(tc.function.name, args)], Except.error e)
    | Except.ok content =>
      ([(tc.function.name, args)],
       Except.ok (Msg.tool tc.id (coerceToolContent content)))

/-- The outcome of the whole tool-call loop: the tool-role messages
appended, the dispatches performed, and the exception that aborted the
loop, if any. -/
structure ToolLoopResult where
  msgs : List Msg
  invocations : List (String × Args)
  err : Option PyError
deriving DecidableEq

/-- Model of the tool-call loop (`client-stdio.py` lines 161 to 180),
processing the Tool Call Requests one at a time, in the order received,
and stopping at the first escaping exception. -/
def runToolCalls (env : Env) : List ToolCall → ToolLoopResult
  | [] => { msgs := [], invocations := [], err := none }
  | tc :: rest =>
    let step := execToolCall env tc
    match step.2 with
    | Except.error e => { msgs := [], invocations := step.1, err := some e }
    | Except.ok msg =>
      let r := runToolCalls env rest
      { msgs := msg :: r.msgs, invocations := step.1 ++ r.invocations, err := r.err }

/-- Model of `MCPAzureOpenAIClient.process_query` (`client-stdio.py` lines
98 to 193).  The first chat request carries the single user message with
`tool_choice` set to `"auto"` (lines 112 to 117); an exception there is
re-raised after diagnostics (lines 118 to 125).  The assistant message is
normalized and the conversation rebuilt (lines 129 to 156).  When the
response carries tool calls, each is resolved in order (lines 159 to 180)
and the second chat request carries the accumulated message list with
`tool_choice` set to `"none"` (lines 182 to 190); otherwise the original
content of the assistant message is returned unchanged (line 193). -/
def process_query (env : Env) (query : String) : QueryTrace :=
  let req1 : ChatRequest := { messages := [Msg.user query], tool_choice := "auto" }
  match env.firstCall with
  | Except.error e =>
    { requests := [req1], toolInvocations := [], result := Except.error e }
  | Except.ok am =>
    let assistant_msg := normalizeAssistant am
    let messages := [Msg.user query, assistant_msg]
    if toolCallsTruthy am.tool_calls then
      let r := runToolCalls env (am.tool_calls.getD [])
      match r.err with
      | some e =>
        { requests := [req1], toolInvocations := r.invocations,
          result := Except.error e }
      | none =>
        let messages2 := messages ++ r.msgs
        let req2 : ChatRequest := { messages := messages2, tool_choice := "none" }
        match env.secondCall messages2 with
        | Except.error e =>
          { requests := [req1, req2], toolInvocations := r.invocations,
            result := Except.error e }
        | Except.ok content =>
          { requests := [req1, req2], toolInvocations := r.invocations,
            result := Except.ok content }
    else
      { requests := [req1], toolInvocations := [], result := Except.ok am.content }

/-- The environment variables read by `MCPAzureOpenAIClient.__init__`
(`client-stdio.py` lines 30 to 33); `none` means the variable is not
set. -/
structure EnvVars where
  azure_openai_api_key : Option String
  azure_openai_endpoint : Option String
  azure_openai_api_version : Option String
  azure_openai_deployment_name : Option String
deriving DecidableEq

/-- The configuration recorded by a successfully constructed client. -/
structure ClientConfig where
  api_key : Option String
  endpoint : Option String
  api_version : String
  deployment_name : Option String
deriving DecidableEq

/-- The message of the `ValueError` raised at `client-stdio.py` lines 36
to 39. -/
def azureConfigErrorMessage : String :=
  "Missing required Azure OpenAI configuration. Please set AZURE_OPENAI_API_KEY, AZURE_OPENAI_ENDPOINT, and AZURE_OPENAI_DEPLOYMENT_NAME in your .env file."

/-- Model of `MCPAzureOpenAIClient.__init__` (`client-stdio.py` lines 19
to 48): read the configuration, resolve the deployment name as
`deployment_name or env`, and raise a `ValueError` when
`all([api_key, endpoint, deployment_name])` is false.  The constructor
performs no network call: the check happens before the API client object
is even built, and building that object performs no I/O either. -/
def client_init (deployment_name : Option String) (env : EnvVars) : Except String ClientConfig :=
  let api_key := env.azure_openai_api_key
  let endpoint := env.azure_openai_endpoint
  let api_version := (env.azure_openai_api_version).getD "2025-01-01"
  let dn := pyOr deployment_name env.azure_openai_deployment_name
  if optTruthy api_key && optTruthy endpoint && optTruthy dn then
    Except.ok { api_key := api_key, endpoint := endpoint,
                api_version := api_version, deployment_name := dn }
  else
    Except.error azureConfigErrorMessage

/-- One turn of user input to the interactive loop: a line of text, or a
keyboard interrupt while waiting for input. -/
inductive UserInput where
  | text (s : String)
  | interrupt
deriving DecidableEq

/-- The observable events of the interactive loop, in order: an answer
printed for a query, an error caught and reported at the loop boundary, a
warning for empty input, or the goodbye message on exit. -/
inductive LoopEvent where
  | answered (response : Option String)
  | errorReported (e : PyError)
  | emptyWarning
  | goodbye
deriving DecidableEq

/-- Model of the `while` loop of `interactive_azure_openai`
(`client-stdio.py` lines 212 to 234): strip the input; a sentinel
(`exit`, `quit`, `bye`, case-insensitively) ends the loop; empty input
prints a warning and continues; otherwise the query is processed exactly
once, its answer printed on success, and any exception caught at the loop
boundary, reported, and the loop continued with the next input.  A
keyboard interrupt ends the loop.  `pq` is the `process_query` the loop
invokes. -/
def interactive_loop (pq : String → Except PyError (Option String)) :
    List UserInput → List LoopEvent
  | [] => []
  | UserInput.interrupt :: _ => [LoopEvent.goodbye]
  | UserInput.text raw :: rest =>
    let user_input := pyStrip raw
    if ["exit", "quit", "bye"].contains (pyLower user_input) then
      [LoopEvent.goodbye]
    else if user_input = "" then
      LoopEvent.emptyWarning :: interactive_loop pq rest
    else
      match pq user_input with
      | Except.ok r => LoopEvent.answered r :: interactive_loop pq rest
      | Except.error e => LoopEvent.errorReported e :: interactive_loop pq rest

/-- Definition following the words of the amended claim C2: the coercion
of a tool result to text keeps the string form of the first element's
text when the result content is a non-empty list; otherwise it is the
string form of the whole value when that value is truthy, and the empty
string when it is falsy. -/
def amended_coercion_rule : ToolResultContent → String
  | ToolResultContent.items (first :: _) => pyStr first.text
  | ToolResultContent.items [] => ""
  | ToolResultContent.raw v => if pyTruthy v then pyStr v else ""

/-!
Concrete environments used by the closed witness and counterexample
theorems below.  Each claim has its own definitions so that removing one
claim's theorems never affects another's.
-/

/-- A first response with two Tool Call Requests, both of which resolve
successfully; used by the C1 witness. -/
def envW1 : Env where
  firstCall := Except.ok
    { content := some "let me check",
      tool_calls := some
        [ { id := "call-1a", type := "function",
            function := { name := "read_notes", arguments := "null" } },
          { id := "call-1b", type := "function",
            function := { name := "draw_ascii_rabbit", arguments := "null" } } ] }
  jsonLoads := fun _ => some []
  callTool := fun _ _ =>
    Except.ok (ToolResultContent.items [{ text := PyVal.vStr "tool output" }])
  secondCall := fun _ => Except.ok (some "final answer")

/-- The list of Tool Call Requests carried by `envW1`. -/
def tcsW1 : List ToolCall :=
  [ { id := "call-1a", type := "function",
      function := { name := "read_notes", arguments := "null" } },
    { id := "call-1b", type := "function",
      function := { name := "draw_ascii_rabbit", arguments := "null" } } ]

/-- A resolved tool result used by the C2 witness. -/
def envW2 : Env where
  firstCall := Except.ok
    { content := none,
      tool_calls := some
        [ { id := "call-2", type := "function",
            function := { name := "read_notes", arguments := "null" } } ] }
  jsonLoads := fun _ => some []
  callTool := fun _ _ =>
    Except.ok (ToolResultContent.items [{ text := PyVal.vStr "out" }])
  secondCall := fun _ => Except.ok (some "final answer")

/-- The Tool Call Request carried by `envW2`. -/
def tcW2 : ToolCall :=
  { id := "call-2", type := "function",
    function := { name := "read_notes", arguments := "null" } }

/-- A first response with one successfully resolved Tool Call Request;
used by the C3 witness. -/
def envW3 : Env where
  firstCall := Except.ok
    { content := none,
      tool_calls := some
        [ { id := "call-3", type := "function",
            function := { name := "add_note", arguments := "null" } } ] }
  jsonLoads := fun _ => some []
  callTool := fun _ _ =>
    Except.ok (ToolResultContent.items [{ text := PyVal.vStr "Note saved!" }])
  secondCall := fun _ => Except.ok (some "saved it")

/-- The list of Tool Call Requests carried by `envW3`. -/
def tcsW3 : List ToolCall :=
  [ { id := "call-3", type := "function",
      function := { name := "add_note", arguments := "null" } } ]

/-- A first response with no Tool Call Requests; used by the C4
witness. -/
def envW4 : Env where
  firstCall := Except.ok { content := some "direct answer", tool_calls := none }
  jsonLoads := fun _ => none
  callTool := fun _ _ => Except.error (PyError.mcpError "unused")
  secondCall := fun _ => Except.error (PyError.apiError "unused")

/-- A first response whose content is `None` and which carries one Tool
Call Request; used by the C5 witness. -/
def envW5 : Env where
  firstCall := Except.ok
    { content := none,
      tool_calls := some
        [ { id := "call-5", type := "function",
            function := { name := "draw_ascii_rabbit", arguments := "raw-arg-string" } } ] }
  jsonLoads := fun _ => some []
  callTool := fun _ _ =>
    Except.ok (ToolResultContent.items [{ text := PyVal.vStr "rabbit" }])
  secondCall := fun _ => Except.ok (some "here is a rabbit")

/-- The list of Tool Call Requests carried by `envW5`. -/
def tcsW5 : List ToolCall :=
  [ { id := "call-5", type := "function",
      function := { name := "draw_ascii_rabbit", arguments := "raw-arg-string" } } ]

/-- An environment whose tool dispatch fails with an unregistered tool
name; used by the C6 witness. -/
def envW6 : Env where
  firstCall := Except.ok
    { content := none,
      tool_calls := some
        [ { id := "call-6", type := "function",
            function := { name := "nope", arguments := "null" } } ] }
  jsonLoads := fun _ => some []
  callTool := fun _ _ => Except.error (PyError.mcpError "Unknown tool: nope")
  secondCall := fun _ => Except.ok (some "unused")

/-- A first response with one Tool Call Request whose raw arguments string
is not valid JSON, decoded by a JSON decoder that rejects it; used by the
C7 counterexample and witness. -/
def envW7 : Env where
  firstCall := Except.ok
    { content := none,
      tool_calls := some
        [ { id := "call-7", type := "function",
            function := { name := "add_note", arguments := "not valid json" } } ] }
  jsonLoads := fun _ => none
  callTool := fun _ _ => Except.ok (ToolResultContent.items [])
  secondCall := fun _ => Except.ok (some "unused")

/-- The Tool Call Request carried by `envW7`. -/
def tcW7 : ToolCall :=
  { id := "call-7", type := "function",
    function := { name := "add_note", arguments := "not valid json" } }

/-!
Helper lemmas about the string model.
-/

lemma isPySpace_newline : isPySpace '\n' = true := by decide

lemma stripRight_append_newline (l : List Char) :
    stripRight (l ++ ['\n']) = stripRight l := by
  unfold stripRight
  rw [List.reverse_append]
  simp [List.dropWhile_cons, isPySpace_newline]

lemma pyStripChars_append_newline (l : List Char) :
    pyStripChars (l ++ ['\n']) = pyStripChars l := by
  unfold pyStripChars
  rw [stripRight_append_newline]

lemma readlines_chars_no_newline (m : List Char) (h : '\n' ∉ m) :
    ∀ acc, readlines_chars acc (m ++ ['\n'])
      = [String.mk (acc.reverse ++ (m ++ ['\n']))] := by
  induction m with
  | nil =>
    intro acc
    simp [readlines_chars]
  | cons c m2 ih =>
    intro acc
    have hc : ¬(c = '\n') := fun hcc => h (hcc ▸ List.mem_cons_self c m2)
    have h2 : '\n' ∉ m2 := fun hm => h (List.mem_cons_of_mem c hm)
    have step : readlines_chars acc ((c :: m2) ++ ['\n'])
        = readlines_chars (c :: acc) (m2 ++ ['\n']) := by
      simp [readlines_chars, hc]
    rw [step, ih h2 (c :: acc)]
    simp

lemma readlines_chars_append (p ds : List Char) :
    ∀ acc, readlines_chars acc ((p ++ ['\n']) ++ ds)
      = readlines_chars acc (p ++ ['\n']) ++ readlines_chars [] ds := by
  induction p with
  | nil =>
    intro acc
    simp [readlines_chars]
  | cons c p2 ih =>
    intro acc
    by_cases hc : c = '\n'
    · subst hc
      simp only [List.cons_append, readlines_chars, eq_self_iff_true, if_true]
      exact congrArg (List.cons _) (ih [])
    · simp only [List.cons_append, readlines_chars, if_neg hc]
      exact ih (c :: acc)

/-!
Helper lemmas about the client model.
-/

lemma runToolCalls_nil (env : Env) :
    runToolCalls env [] = { msgs := [], invocations := [], err := none } := rfl

lemma runToolCalls_cons (env : Env) (tc : ToolCall) (rest : List ToolCall) :
    runToolCalls env (tc :: rest) =
      match (execToolCall env tc).2 with
      | Except.error e =>
        { msgs := [], invocations := (execToolCall env tc).1, err := some e }
      | Except.ok msg =>
        { msgs := msg :: (runToolCalls env rest).msgs,
          invocations := (execToolCall env tc).1 ++ (runToolCalls env rest).invocations,
          err := (runToolCalls env rest).err } := rfl

lemma execToolCall_eq_none (env : Env) (tc : ToolCall)
    (h : env.jsonLoads tc.function.arguments = none) :
    execToolCall env tc
      = ([], Except.error (PyError.jsonDecodeError tc.function.arguments)) := by
  unfold execToolCall
  rw [h]

lemma execToolCall_eq_some (env : Env) (tc : ToolCall) (args : Args)
    (h : env.jsonLoads tc.function.arguments = some args) :
    execToolCall env tc
      = (match env.callTool tc.function.name args with
         | Except.error e => ([(tc.function.name, args)], Except.error e)
         | Except.ok content =>
           ([(tc.function.name, args)],
            Except.ok (Msg.tool tc.id (coerceToolContent content)))) := by
  unfold execToolCall
  rw [h]

lemma execToolCall_ok_shape (env : Env) (tc : ToolCall) (msg : Msg)
    (h : (execToolCall env tc).2 = Except.ok msg) :
    ∃ s, msg = Msg.tool tc.id s := by
  cases hj : env.jsonLoads tc.function.arguments with
  | none =>
    rw [execToolCall_eq_none env tc hj] at h
    cases h
  | some args =>
    cases hc : env.callTool tc.function.name args with
    | error e =>
      have he : (execToolCall env tc).2 = Except.error e := by
        rw [execToolCall_eq_some env tc args hj, hc]
      rw [he] at h
      cases h
    | ok content =>
      have he : (execToolCall env tc).2
          = Except.ok (Msg.tool tc.id (coerceToolContent content)) := by
        rw [execToolCall_eq_some env tc args hj, hc]
      rw [he] at h
      injection h with h2
      exact ⟨coerceToolContent content, h2.symm⟩

lemma runToolCalls_none_spec (env : Env) :
    ∀ tcs : List ToolCall, (runToolCalls env tcs).err = none →
      (runToolCalls env tcs).msgs.length = tcs.length ∧
      List.Forall₂ (fun tc m => Msg.toolCallId m = some tc.id) tcs
        (runToolCalls env tcs).msgs := by
  intro tcs
  induction tcs with
  | nil => intro _; exact ⟨rfl, List.Forall₂.nil⟩
  | cons tc rest ih =>
    intro h
    rw [runToolCalls_cons] at h ⊢
    cases hs : (execToolCall env tc).2 with
    | error e => rw [hs] at h; simp at h
    | ok msg =>
      rw [hs] at h
      simp only at h ⊢
      obtain ⟨s, hmsg⟩ := execToolCall_ok_shape env tc msg hs
      obtain ⟨hlen, hfa⟩ := ih h
      refine ⟨by simp [hlen], List.Forall₂.cons ?_ hfa⟩
      rw [hmsg]
      rfl

lemma toolCallsTruthy_some_of_ne_nil (tcs : List ToolCall) (h : tcs ≠ []) :
    toolCallsTruthy (some tcs) = true := by
  cases tcs with
  | nil => exact absurd rfl h
  | cons a l => rfl

lemma process_query_tool_branch (env : Env) (query : String) (am : AssistantMessage)
    (tcs : List ToolCall)
    (h1 : env.firstCall = Except.ok am) (h2 : am.tool_calls = some tcs) (h3 : tcs ≠ [])
    (h4 : (runToolCalls env tcs).err = none) :
    (process_query env query).requests =
      [ { messages := [Msg.user query], tool_choice := "auto" },
        { messages := Msg.user query :: normalizeAssistant am :: (runToolCalls env tcs).msgs,
          tool_choice := "none" } ] ∧
    (process_query env query).toolInvocations = (runToolCalls env tcs).invocations := by
  have hT := toolCallsTruthy_some_of_ne_nil tcs h3
  unfold process_query
  rw [h1]
  simp only [h2, Option.getD_some, hT, if_true]
  rw [h4]
  cases hS : env.secondCall
      ([Msg.user query, normalizeAssistant am] ++ (runToolCalls env tcs).msgs) with
  | error e => exact ⟨rfl, rfl⟩
  | ok c => exact ⟨rfl, rfl⟩

lemma process_query_no_tools (env : Env) (query : String) (am : AssistantMessage)
    (h1 : env.firstCall = Except.ok am) (h2 : toolCallsTruthy am.tool_calls = false) :
    process_query env query =
      { requests := [{ messages := [Msg.user query], tool_choice := "auto" }],
        toolInvocations := [], result := Except.ok am.content } := by
  unfold process_query
  rw [h1]
  simp only [h2, Bool.false_eq_true, if_false]

lemma process_query_requests_length_le_two (env : Env) (query : String) :
    (process_query env query).requests.length ≤ 2 := by
  unfold process_query
  cases h : env.firstCall with
  | error e => simp
  | ok am =>
    by_cases hT : toolCallsTruthy am.tool_calls = true
    · simp only [hT, if_true]
      cases hE : (runToolCalls env (am.tool_calls.getD [])).err with
      | some e => simp
      | none =>
        cases hS : env.secondCall
            ([Msg.user query, normalizeAssistant am]
              ++ (runToolCalls env (am.tool_calls.getD [])).msgs) with
        | error e => simp
        | ok c => simp
    · simp only [Bool.not_eq_true] at hT
      simp only [hT, Bool.false_eq_true, if_false]
      simp

lemma normContent_eq_getD (c : Option String) : normContent c = c.getD "" := by
  cases c with
  | none => rfl
  | some s =>
    unfold normContent optTruthy
    by_cases hs : s.isEmpty
    · rw [(String.isEmpty_iff s).mp hs]
      simp
    · simp [hs]

lemma coerce_eq_amended (c : ToolResultContent) :
    coerceToolContent c = amended_coercion_rule c := by
  cases c with
  | items l =>
    cases l with
    | nil => rfl
    | cons first rest => rfl
  | raw v =>
    unfold coerceToolContent amended_coercion_rule trcTruthy
    by_cases hv : pyTruthy v = true
    · simp [hv]
    · simp only [Bool.not_eq_true] at hv
      simp [hv]

/-!
The claims.
-/

/-- C1: for every first model response carrying N Tool Call Requests with
N at least 1 (all of which resolve without an escaping exception, so that
the second call is issued), the message list sent in the second model call
is exactly the user message, then the normalized assistant message, then
the N tool-role messages in the order the requests were received; its
length is 2 + N; and the i-th tool-role message is tagged with the call id
of the i-th request.  Tool-role message content is a string by
construction of `Msg.tool`. -/
theorem C1_second_call_message_list (env : Env) (query : String)
    (am : AssistantMessage) (tcs : List ToolCall)
    (h1 : env.firstCall = Except.ok am) (h2 : am.tool_calls = some tcs)
    (h3 : tcs ≠ []) (h4 : (runToolCalls env tcs).err = none) :
    ((process_query env query).requests[1]?).map ChatRequest.messages
      = some (Msg.user query :: normalizeAssistant am :: (runToolCalls env tcs).msgs) ∧
    ((process_query env query).requests[1]?).map (fun r => r.messages.length)
      = some (2 + tcs.length) ∧
    List.Forall₂ (fun tc m => Msg.toolCallId m = some tc.id) tcs
      (runToolCalls env tcs).msgs := by
  obtain ⟨hreq, hinv⟩ := process_query_tool_branch env query am tcs h1 h2 h3 h4
  obtain ⟨hlen, hfa⟩ := runToolCalls_none_spec env tcs h4
  rw [hreq]
  refine ⟨rfl, ?_, hfa⟩
  simp [hlen]
  omega

/-- C1 witness: `C1_second_call_message_list` applied to the concrete
environment `envW1`, whose first response carries two Tool Call Requests;
the second request's message list has length 4. -/
theorem C1_witness :
    ((process_query envW1 "what are my notes?").requests[1]?).map
        (fun r => r.messages.length) = some 4 :=
  (C1_second_call_message_list envW1 "what are my notes?"
      { content := some "let me check", tool_calls := some tcsW1 } tcsW1
      rfl rfl (by decide) rfl).2.1

/-- C2 counterexample: the claim states that when the result content is
not a non-empty list, the appended content is the string form of the whole
result value; but for the falsy value `None` the code leaves the content
as the empty string while `str(None)` is `"None"`. -/
theorem C2_counterexample :
    coerceToolContent (ToolResultContent.raw PyVal.vNone) ≠ pyStr PyVal.vNone := by
  decide

/-- C2 amended: for every tool invocation that returns a result, the
appended tool-role message carries the request's id and content given by
the amended rule — the string form of the first element's text for a
non-empty list, the string form of the whole value for any other truthy
value, and the empty string for a falsy value. -/
theorem C2_amended_coercion (env : Env) (tc : ToolCall) (args : Args)
    (content : ToolResultContent)
    (h1 : env.jsonLoads tc.function.arguments = some args)
    (h2 : env.callTool tc.function.name args = Except.ok content) :
    (execToolCall env tc).2
      = Except.ok (Msg.tool tc.id (amended_coercion_rule content)) := by
  have he : (execToolCall env tc).2
      = Except.ok (Msg.tool tc.id (coerceToolContent content)) := by
    rw [execToolCall_eq_some env tc args h1, h2]
  rw [he, coerce_eq_amended]

/-- C2 witness: `C2_amended_coercion` applied to the concrete environment
`envW2`, whose tool returns a one-element list with text `"out"`. -/
theorem C2_amended_witness :
    (execToolCall envW2 tcW2).2 = Except.ok (Msg.tool "call-2" "out") :=
  C2_amended_coercion envW2 tcW2 []
    (ToolResultContent.items [{ text := PyVal.vStr "out" }]) rfl rfl

/-- C3: on every query whose first model response contains at least one
Tool Call Request (and whose tool calls resolve, so that the second call
is issued), the chat requests issued are exactly two, the first with tool
invocation mode `"auto"` and the second with mode `"none"`, regardless of
the number of tool calls; moreover every query whatsoever issues at most
two model round-trips. -/
theorem C3_second_call_tool_choice (env : Env) (query : String)
    (am : AssistantMessage) (tcs : List ToolCall)
    (h1 : env.firstCall = Except.ok am) (h2 : am.tool_calls = some tcs)
    (h3 : tcs ≠ []) (h4 : (runToolCalls env tcs).err = none) :
    (process_query env query).requests.map ChatRequest.tool_choice
      = ["auto", "none"] ∧
    ∀ env2 : Env, ∀ query2 : String,
      (process_query env2 query2).requests.length ≤ 2 := by
  obtain ⟨hreq, _⟩ := process_query_tool_branch env query am tcs h1 h2 h3 h4
  refine ⟨?_, fun env2 query2 => process_query_requests_length_le_two env2 query2⟩
  rw [hreq]
  rfl

/-- C3 witness: `C3_second_call_tool_choice` applied to the concrete
environment `envW3` with one tool call. -/
theorem C3_witness :
    (process_query envW3 "please add a note").requests.map ChatRequest.tool_choice
      = ["auto", "none"] :=
  (C3_second_call_tool_choice envW3 "please add a note"
      { content := none, tool_calls := some tcsW3 } tcsW3 rfl rfl (by decide) rfl).1

/-- C4: if the first model response contains no Tool Call Requests, then
no tool is invoked, no second model call is made (exactly one request is
issued), and the value returned for the query is the assistant's original
content, unchanged. -/
theorem C4_no_tool_calls (env : Env) (query : String) (am : AssistantMessage)
    (h1 : env.firstCall = Except.ok am)
    (h2 : toolCallsTruthy am.tool_calls = false) :
    (process_query env query).result = Except.ok am.content ∧
    (process_query env query).toolInvocations = [] ∧
    (process_query env query).requests.length = 1 := by
  rw [process_query_no_tools env query am h1 h2]
  exact ⟨rfl, rfl, rfl⟩

/-- C4 witness: `C4_no_tool_calls` applied to the concrete environment
`envW4`, whose first response has no tool calls. -/
theorem C4_witness :
    (process_query envW4 "hello").result = Except.ok (some "direct answer") :=
  (C4_no_tool_calls envW4 "hello"
      { content := some "direct answer", tool_calls := none } rfl rfl).1

/-- C5: when the first model response carries Tool Call Requests (and they
resolve, so that the replay happens), the assistant message replayed at
position 1 of the second call's message list has content equal to the
model's text content with `none` defaulted to the empty string, and its
serialized tool calls carry the id, type, and function name and arguments
of each request exactly as received, the arguments as the raw encoded
string. -/
theorem C5_assistant_replay (env : Env) (query : String)
    (am : AssistantMessage) (tcs : List ToolCall)
    (h1 : env.firstCall = Except.ok am) (h2 : am.tool_calls = some tcs)
    (h3 : tcs ≠ []) (h4 : (runToolCalls env tcs).err = none) :
    ((process_query env query).requests[1]?).bind (fun r => r.messages[1]?)
      = some (Msg.assistant (am.content.getD "")
          (some (tcs.map serializeToolCall))) ∧
    List.Forall₂
      (fun tc s => s.id = tc.id ∧ s.type = tc.type ∧
        s.function.name = tc.function.name ∧
        s.function.arguments = tc.function.arguments)
      tcs (tcs.map serializeToolCall) := by
  obtain ⟨hreq, _⟩ := process_query_tool_branch env query am tcs h1 h2 h3 h4
  constructor
  · have hna : normalizeAssistant am
        = Msg.assistant (am.content.getD "") (some (tcs.map serializeToolCall)) := by
      unfold normalizeAssistant
      rw [normContent_eq_getD, h2, toolCallsTruthy_some_of_ne_nil tcs h3]
      simp
    rw [hreq]
    simp [hna]
  · rw [List.forall₂_map_right_iff, List.forall₂_same]
    intro x hx
    exact ⟨rfl, rfl, rfl, rfl⟩

/-- C5 witness: `C5_assistant_replay` applied to the concrete environment
`envW5`, whose first response has content `None` and one tool call; the
replayed assistant message defaults the content to the empty string and
serializes the call verbatim. -/
theorem C5_witness :
    ((process_query envW5 "draw a rabbit").requests[1]?).bind
        (fun r => r.messages[1]?)
      = some (Msg.assistant ""
          (some [ { id := "call-5", type := "function",
                    function := { name := "draw_ascii_rabbit",
                                  arguments := "raw-arg-string" } } ])) :=
  (C5_assistant_replay envW5 "draw a rabbit"
      { content := none, tool_calls := some tcsW5 } tcsW5 rfl rfl (by decide) rfl).1

lemma interactive_loop_text (pq : String → Except PyError (Option String))
    (raw : String) (rest : List UserInput) :
    interactive_loop pq (UserInput.text raw :: rest)
      = (if ["exit", "quit", "bye"].contains (pyLower (pyStrip raw)) then
           [LoopEvent.goodbye]
         else if pyStrip raw = "" then
           LoopEvent.emptyWarning :: interactive_loop pq rest
         else
           match pq (pyStrip raw) with
           | Except.ok r => LoopEvent.answered r :: interactive_loop pq rest
           | Except.error e =>
             LoopEvent.errorReported e :: interactive_loop pq rest) := rfl

/-- C6: any error that escapes `process_query` for a single query — the
per-query oracle `envOf` may make the first model call fail with an API
error or a tool dispatch fail, e.g. with an unregistered tool name — is
caught at the interactive loop boundary and reported as a single
`errorReported` event, the loop does not terminate but continues with the
remaining inputs unchanged, and the query is processed exactly once (no
retry: the event list for this input is exactly the one report). -/
theorem C6_error_caught_at_loop (envOf : String → Env) (raw : String)
    (rest : List UserInput) (e : PyError)
    (h1 : (["exit", "quit", "bye"].contains (pyLower (pyStrip raw))) = false)
    (h2 : pyStrip raw ≠ "")
    (h3 : (process_query (envOf (pyStrip raw)) (pyStrip raw)).result
      = Except.error e) :
    interactive_loop (fun q => (process_query (envOf q) q).result)
        (UserInput.text raw :: rest)
      = LoopEvent.errorReported e
        :: interactive_loop (fun q => (process_query (envOf q) q).result) rest := by
  rw [interactive_loop_text]
  simp only [h1, Bool.false_eq_true, if_false, if_neg h2, h3]

/-- C6 witness: `C6_error_caught_at_loop` applied to the concrete
environment `envW6`, whose tool dispatch fails with an unregistered tool
name; the error is reported and the loop goes on to handle the next input
(`exit`). -/
theorem C6_witness :
    interactive_loop (fun q => (process_query envW6 q).result)
        [UserInput.text " call that tool ", UserInput.text "exit"]
      = [LoopEvent.errorReported (PyError.mcpError "Unknown tool: nope"),
         LoopEvent.goodbye] :=
  (C6_error_caught_at_loop (fun _ => envW6) " call that tool "
      [UserInput.text "exit"] (PyError.mcpError "Unknown tool: nope")
      (by decide) (by decide) rfl).trans rfl

/-- C7 counterexample: at a query whose single Tool Call Request carries
the raw arguments string `"not valid json"`, the escaping error is the
JSON library's generic decode failure (`json.JSONDecodeError` raised by
`json.loads` at `client-stdio.py` line 165), not a distinct
`MalformedArguments` error kind — no such kind exists anywhere in the
code, so the claim's "rather than propagating a generic decode failure"
fails. -/
theorem C7_counterexample :
    (process_query envW7 "add a note").result
      = Except.error (PyError.jsonDecodeError "not valid json") ∧
    PyError.pythonClass (PyError.jsonDecodeError "not valid json")
      ≠ "MalformedArguments" :=
  ⟨rfl, by decide⟩

/-- C7 amended: for every Tool Call Request whose raw arguments string the
JSON decoder rejects, processing that request fails before any dispatch
(the dispatch list is empty) with the generic `json.JSONDecodeError`
carrying the raw string, and that is the error that propagates; the code
defines no distinct `MalformedArguments` error kind. -/
theorem C7_amended_decode_failure (env : Env) (tc : ToolCall)
    (h : env.jsonLoads tc.function.arguments = none) :
    execToolCall env tc
      = ([], Except.error (PyError.jsonDecodeError tc.function.arguments)) ∧
    (PyError.jsonDecodeError tc.function.arguments).pythonClass
      = "json.JSONDecodeError" :=
  ⟨execToolCall_eq_none env tc h, rfl⟩

/-- C7 witness: `C7_amended_decode_failure` applied to the concrete
request `tcW7` with invalid raw arguments under `envW7`. -/
theorem C7_amended_witness :
    execToolCall envW7 tcW7
      = ([], Except.error (PyError.jsonDecodeError "not valid json")) :=
  (C7_amended_decode_failure envW7 tcW7 rfl).1

/-- C8: if any required configuration value — the API key, the endpoint,
or the deployment name (supplied neither as a constructor argument nor in
the environment) — is missing, client construction fails with the
descriptive configuration error message; `client_init` performs no network
call at all, so the failure precedes any network activity. -/
theorem C8_missing_config_fails (deployment_name : Option String) (env : EnvVars)
    (h : env.azure_openai_api_key = none ∨ env.azure_openai_endpoint = none ∨
      pyOr deployment_name env.azure_openai_deployment_name = none) :
    client_init deployment_name env = Except.error azureConfigErrorMessage := by
  unfold client_init
  rcases h with h | h | h <;> simp [h, optTruthy]

/-- C8 witness: `C8_missing_config_fails` at a configuration with the API
key missing. -/
theorem C8_witness :
    client_init none
        { azure_openai_api_key := none,
          azure_openai_endpoint := some "https://example.openai.azure.com/",
          azure_openai_api_version := none,
          azure_openai_deployment_name := some "gpt-4o" }
      = Except.error azureConfigErrorMessage :=
  C8_missing_config_fails none _ (Or.inl rfl)

/-- C9 counterexample: the claim's "exactly when" fails on a file whose
stripped contents literally equal `"No notes yet."`: `read_notes` returns
that string although the file is neither absent, empty, nor
whitespace-only. -/
theorem C9_counterexample :
    ¬ ((read_notes (some "No notes yet.") = "No notes yet.")
        ↔ pyStrip "No notes yet." = "") := by
  decide

/-- C9 amended: `read_notes` returns `"No notes yet."` if the notes file
is absent, empty, or contains only whitespace (equivalently, its contents
strip to the empty string), and otherwise returns the file's full contents
with leading and trailing whitespace stripped — which may itself coincide
with the default string, so the claim holds as an "if", not an "exactly
when". -/
theorem C9_read_notes (fs : Option String) :
    (pyStrip (fs.getD "") = "" → read_notes fs = "No notes yet.") ∧
    (pyStrip (fs.getD "") ≠ "" → read_notes fs = pyStrip (fs.getD "")) := by
  cases fs with
  | none =>
    constructor
    · intro h; rfl
    · intro h; exact absurd rfl h
  | some s =>
    constructor
    · intro h
      unfold read_notes
      exact if_pos h
    · intro h
      unfold read_notes
      exact if_neg h

/-- C9 witness: `C9_read_notes` at a file containing a padded note. -/
theorem C9_witness : read_notes (some "  buy milk  ") = "buy milk" :=
  (C9_read_notes (some "  buy milk  ")).2 (by decide)

/-- C10 counterexample: with pre-existing contents `"abc"` that do not end
in a newline, `add_note` appends `"milk\n"` producing `"abcmilk\n"`, and a
subsequent `get_latest_note` returns `"abcmilk"`, not the stripped message
`"milk"` the claim promises for every prior file state. -/
theorem C10_counterexample :
    get_latest_note ((add_note (some "abc") "milk").1) = "abcmilk" ∧
    get_latest_note ((add_note (some "abc") "milk").1) ≠ pyStrip "milk" := by
  exact ⟨by decide, by decide⟩

/-- C10 amended: for every message containing no newline character and
every notes file state, `add_note` returns `"Note saved!"` and sets the
file to the old contents with exactly the message and a newline appended
(leaving every previously stored character unchanged); and, provided the
pre-existing contents are empty or end with a newline — which covers the
absent file, the file created by `ensure_file`, and every file produced by
`add_note` itself — a subsequent `get_latest_note` returns the message
with surrounding whitespace stripped. -/
theorem C10_add_note_roundtrip (fs : Option String) (m : String)
    (h1 : '\n' ∉ m.data) :
    (add_note fs m).2 = "Note saved!" ∧
    (add_note fs m).1 = some ((fs.getD "") ++ m ++ "\n") ∧
    (((fs.getD "").data = [] ∨ ∃ p : List Char, (fs.getD "").data = p ++ ['\n']) →
      get_latest_note ((add_note fs m).1) = pyStrip m) := by
  have hfile : (add_note fs m).1 = some ((fs.getD "") ++ m ++ "\n") := by
    cases fs <;> rfl
  refine ⟨rfl, hfile, ?_⟩
  intro h2
  rw [hfile]
  have hdata : ((fs.getD "" ++ m) ++ "\n").data
      = (fs.getD "").data ++ (m.data ++ ['\n']) := by
    rw [String.data_append, String.data_append, List.append_assoc]
  have hlast : (pyReadlines ((fs.getD "" ++ m) ++ "\n")).getLast?
      = some (String.mk (m.data ++ ['\n'])) := by
    unfold pyReadlines
    rw [hdata]
    rcases h2 with h2 | ⟨p, h2⟩
    · rw [h2]
      simp only [List.nil_append]
      rw [readlines_chars_no_newline m.data h1 []]
      rfl
    · rw [h2]
      rw [readlines_chars_append p (m.data ++ ['\n'])]
      rw [readlines_chars_no_newline m.data h1 []]
      rw [List.getLast?_concat]
      rfl
  unfold get_latest_note
  simp only [ensure_file, Option.getD_some]
  rw [hlast]
  show pyStrip (String.mk (m.data ++ ['\n'])) = pyStrip m
  show String.mk ((stripRight (m.data ++ ['\n'])).dropWhile isPySpace)
      = String.mk ((stripRight m.data).dropWhile isPySpace)
  rw [stripRight_append_newline]

/-- C10 witness: `C10_add_note_roundtrip` at a newline-terminated file and
a padded message. -/
theorem C10_witness :
    get_latest_note ((add_note (some "old note\n") " milk ").1) = "milk" :=
  (C10_add_note_roundtrip (some "old note\n") " milk " (by decide)).2.2
    (Or.inr ⟨"old note".data, rfl⟩)
